import Mathlib

/-!
Shallow embedding of the Siemens RDF302 Home Assistant integration
(custom_components/siemens_rdf302), centred on ModbusHost
(modbus_host.py) and the registry lifecycle in the package init module.

The pymodbus client is modelled as an oracle: the i-th wire call of an
operation receives the i-th element of an `outcomes` environment, which is
either a raised exception or a response object carrying the protocol
error flag and the returned values.  Python exceptions that the source
does not catch propagate as `Except.error`; the `None` return value is
`Option.none`; `asyncio.sleep` calls are recorded in a trace.
-/

/-- Exception classes raised by the pymodbus client, as caught by the
write paths of modbus_host.py (ModbusIOException, ModbusException, and
the catch-all Exception). -/
inductive ModbusError : Type
  | ioError
  | modbusError
  | unknown
deriving DecidableEq, Repr

/-- A Python exception as it crosses a function boundary: a client
exception, an IndexError from sequence indexing, or a KeyError from a
dict lookup. -/
inductive PyError : Type
  | modbus (e : ModbusError)
  | indexError
  | keyError
deriving DecidableEq, Repr

/-- Outcome of one client read call: the call raised, or it returned a
response object with an error flag and a list of values (registers for
register reads, bits for coil reads). -/
inductive ReadOutcome (α : Type) : Type
  | raise (e : PyError)
  | resp (isError : Bool) (values : List α)
deriving DecidableEq, Repr

/-- Observable trace of one multi-value read operation: its return value
(`Except.error` = an uncaught exception escaped, `Except.ok none` = the
failure sentinel, `Except.ok (some vs)` = accepted values), the number of
client read calls made, and the list of sleep durations performed. -/
structure ReadTrace (α : Type) : Type where
  result : Except PyError (Option (List α))
  attemptsMade : Nat
  sleeps : List ℚ
deriving Repr

/-- Body of the retry loop shared verbatim by async_read_holding_registers,
async_read_input_registers and async_read_coils in modbus_host.py:

  for attempt in range(self._max_retry_count):
      await self.async_connect()
      result = await self._client.read_...(address, count, unit_id)
      if not result.isError() and len(result.values) == count:
          return result.values
      if attempt < self._max_retry_count - 1:
          await asyncio.sleep(self._retry_delay)
  return None

`attempt` is the current loop index and `fuel` the number of iterations
remaining (`maxRetry - attempt`); an exhausted loop returns the sentinel. -/
def readLoop {α : Type} (count : Nat) (retryDelay : ℚ) (maxRetry : Nat)
    (outcomes : Nat → ReadOutcome α) : Nat → Nat → ReadTrace α
  | _, 0 => ⟨Except.ok none, 0, []⟩
  | attempt, fuel + 1 =>
    match outcomes attempt with
    | ReadOutcome.raise e => ⟨Except.error e, 1, []⟩
    | ReadOutcome.resp isErr vals =>
      if !isErr && vals.length == count then
        ⟨Except.ok (some vals), 1, []⟩
      else
        let rest := readLoop count retryDelay maxRetry outcomes (attempt + 1) fuel
        ⟨rest.result, rest.attemptsMade + 1,
          if attempt < maxRetry - 1 then retryDelay :: rest.sleeps else rest.sleeps⟩

/-- ModbusHost.async_read_holding_registers: the retry loop over the
read_holding_registers client call, started at attempt 0. -/
def async_read_holding_registers (maxRetry count : Nat) (retryDelay : ℚ)
    (outcomes : Nat → ReadOutcome Nat) : ReadTrace Nat :=
  readLoop count retryDelay maxRetry outcomes 0 maxRetry

/-- ModbusHost.async_read_input_registers: identical loop over the
read_input_registers client call. -/
def async_read_input_registers (maxRetry count : Nat) (retryDelay : ℚ)
    (outcomes : Nat → ReadOutcome Nat) : ReadTrace Nat :=
  readLoop count retryDelay maxRetry outcomes 0 maxRetry

/-- ModbusHost.async_read_coils: identical loop over the read_coils
client call, whose values are bits. -/
def async_read_coils (maxRetry count : Nat) (retryDelay : ℚ)
    (outcomes : Nat → ReadOutcome Bool) : ReadTrace Bool :=
  readLoop count retryDelay maxRetry outcomes 0 maxRetry

/-- Observable trace of the single-coil read: return value and number of
client calls made (it never sleeps). -/
structure CoilTrace : Type where
  result : Except PyError (Option Bool)
  attemptsMade : Nat
deriving Repr

/-- ModbusHost.async_read_coil:

  result = await self._client.read_coils(address, 1, unit_id)
  if not result.isError():
      return result.bits[0]
  return None

One client call, no loop; `bits[0]` on an empty sequence raises
IndexError, which nothing here catches. -/
def async_read_coil (outcomes : Nat → ReadOutcome Bool) : CoilTrace :=
  match outcomes 0 with
  | ReadOutcome.raise e => ⟨Except.error e, 1⟩
  | ReadOutcome.resp isErr bits =>
    if !isErr then
      match bits with
      | b :: _ => ⟨Except.ok (some b), 1⟩
      | [] => ⟨Except.error PyError.indexError, 1⟩
    else ⟨Except.ok none, 1⟩

/-- Outcome of one client write call: raised, or returned a response
object with an error flag. -/
inductive WriteOutcome : Type
  | raise (e : PyError)
  | resp (isError : Bool)
deriving DecidableEq, Repr

/-- ModbusHost.async_write_register:

  try:
      result = await self._client.write_register(address, value, unit_id)
      if not result.isError():
          return True
      _LOGGER.error(...)          # falls through: implicit return None
  except ModbusIOException: return False
  except ModbusException: return False
  except Exception: return False

Every exception class is caught and converted to False; an error-flagged
response falls out of the try block and the function returns None. -/
def async_write_register (outcome : WriteOutcome) : Except PyError (Option Bool) :=
  match outcome with
  | WriteOutcome.resp isErr =>
    if !isErr then Except.ok (some true) else Except.ok none
  | WriteOutcome.raise (PyError.modbus ModbusError.ioError) => Except.ok (some false)
  | WriteOutcome.raise (PyError.modbus ModbusError.modbusError) => Except.ok (some false)
  | WriteOutcome.raise _ => Except.ok (some false)

/-- ModbusHost.async_write_coil: structurally identical to
async_write_register, including the fall-through None on an error-flagged
response. -/
def async_write_coil (outcome : WriteOutcome) : Except PyError (Option Bool) :=
  match outcome with
  | WriteOutcome.resp isErr =>
    if !isErr then Except.ok (some true) else Except.ok none
  | WriteOutcome.raise (PyError.modbus ModbusError.ioError) => Except.ok (some false)
  | WriteOutcome.raise (PyError.modbus ModbusError.modbusError) => Except.ok (some false)
  | WriteOutcome.raise _ => Except.ok (some false)

/-- A read attempt outcome is rejected by the acceptance test of the
retry loop: it is a response whose error flag is set or whose value count
differs from the requested count. -/
def rejectedResp {α : Type} (count : Nat) (o : ReadOutcome α) : Prop :=
  ∃ e vs, o = ReadOutcome.resp e vs ∧ (e = true ∨ vs.length ≠ count)

/-- ModbusHost.async_connect over the transport connected flag:

  if not self._client.connected:
      await self._client.connect()

Returns the new connected state and whether the client connect call was
made. -/
def async_connect (connected : Bool) : Bool × Bool :=
  if !connected then (true, true) else (connected, false)

/-- ModbusHost.async_disconnect over the transport connected flag:

  if self._client.connected:
      await self._client.close()

Returns the new connected state and whether the client close call was
made. -/
def async_disconnect (connected : Bool) : Bool × Bool :=
  if connected then (false, true) else (connected, false)

/-- ModbusHost.add_subscriber: unguarded increment of the subscriber
count (a Python int). -/
def add_subscriber (n : ℤ) : ℤ := n + 1

/-- ModbusHost.remove_subscriber: unguarded decrement; when the count
reaches zero a disconnect task is created.  Returns the new count and
whether the disconnect task was spawned. -/
def remove_subscriber (n : ℤ) : ℤ × Bool :=
  (n - 1, decide (n - 1 = 0))

/-- State of the host registry for one fixed endpoint key: `none` when
no ModbusHost instance is registered under the key, `some n` when one is
registered and its subscriber count is `n`. -/
def RegistryState : Type := Option ℤ

/-- Registry effect of async_setup_entry in the package init module for
one endpoint: create the host with count 0 if the key is absent, then
add_subscriber. -/
def async_setup_entry : RegistryState → RegistryState
  | none => some (add_subscriber 0)
  | some n => some (add_subscriber n)

/-- Registry effect of async_unload_entry (with unload_ok true) for one
endpoint:

  modbus_host = hass.data[DOMAIN][host_key]      # KeyError if absent
  modbus_host.remove_subscriber()
  if modbus_host.get_subscriber_count() == 0:
      await modbus_host.async_disconnect()
      del hass.data[DOMAIN][host_key]

Returns the new registry state and whether the transport was closed and
the entry removed. -/
def async_unload_entry : RegistryState → Except PyError (RegistryState × Bool)
  | none => Except.error PyError.keyError
  | some n =>
    let n' := (remove_subscriber n).1
    if n' = 0 then Except.ok (none, true) else Except.ok (some n', false)

/-- One lifecycle call on the registry for the fixed endpoint: an
acquire (async_setup_entry) or a release (async_unload_entry). -/
inductive RegOp : Type
  | setup
  | unload
deriving DecidableEq, Repr

/-- Run a sequence of lifecycle calls from a registry state; a KeyError
raised by a release on an absent key aborts the run. -/
def runRegistry : List RegOp → RegistryState → Except PyError RegistryState
  | [], s => Except.ok s
  | RegOp.setup :: ops, s => runRegistry ops (async_setup_entry s)
  | RegOp.unload :: ops, s =>
    match async_unload_entry s with
    | Except.error e => Except.error e
    | Except.ok (s', _) => runRegistry ops s'

/-- Subscriber count read off a registry state; an absent host counts as
zero. -/
def countOf : RegistryState → ℤ
  | none => 0
  | some n => n

/-- Number of acquire calls in a lifecycle sequence. -/
def numSetups (ops : List RegOp) : Nat := ops.count RegOp.setup

/-- Number of release calls in a lifecycle sequence. -/
def numUnloads (ops : List RegOp) : Nat := ops.count RegOp.unload

/-- Internal invariant of the registry: a registered host always has a
positive subscriber count. -/
def RegistryInv : RegistryState → Prop
  | none => True
  | some n => 0 < n

/-- Whether a Python call returned normally rather than letting an
exception escape. -/
def returnedNormally {β : Type} : Except PyError β → Bool
  | Except.ok _ => true
  | Except.error _ => false

theorem readLoop_raise_step {α : Type} (count : Nat) (rd : ℚ) (maxRetry : Nat)
    (outcomes : Nat → ReadOutcome α) (attempt fuel : Nat) (e : PyError)
    (ho : outcomes attempt = ReadOutcome.raise e) :
    readLoop count rd maxRetry outcomes attempt (fuel + 1) =
      ⟨Except.error e, 1, []⟩ := by
  simp only [readLoop, ho]

theorem readLoop_accept_step {α : Type} (count : Nat) (rd : ℚ) (maxRetry : Nat)
    (outcomes : Nat → ReadOutcome α) (attempt fuel : Nat) (e : Bool) (vs : List α)
    (ho : outcomes attempt = ReadOutcome.resp e vs)
    (hcond : (!e && (vs.length == count)) = true) :
    readLoop count rd maxRetry outcomes attempt (fuel + 1) =
      ⟨Except.ok (some vs), 1, []⟩ := by
  simp only [readLoop, ho, hcond]
  simp

theorem readLoop_reject_step {α : Type} (count : Nat) (rd : ℚ) (maxRetry : Nat)
    (outcomes : Nat → ReadOutcome α) (attempt fuel : Nat) (e : Bool) (vs : List α)
    (ho : outcomes attempt = ReadOutcome.resp e vs)
    (hcond : (!e && (vs.length == count)) = false) :
    readLoop count rd maxRetry outcomes attempt (fuel + 1) =
      ⟨(readLoop count rd maxRetry outcomes (attempt + 1) fuel).result,
       (readLoop count rd maxRetry outcomes (attempt + 1) fuel).attemptsMade + 1,
       if attempt < maxRetry - 1 then
         rd :: (readLoop count rd maxRetry outcomes (attempt + 1) fuel).sleeps
       else (readLoop count rd maxRetry outcomes (attempt + 1) fuel).sleeps⟩ := by
  simp only [readLoop, ho, hcond]
  simp

theorem readLoop_all_rejected {α : Type} (count : Nat) (rd : ℚ) (maxRetry : Nat)
    (outcomes : Nat → ReadOutcome α) :
    ∀ fuel attempt, attempt + fuel = maxRetry →
      (∀ i, attempt ≤ i → i < maxRetry → rejectedResp count (outcomes i)) →
      readLoop count rd maxRetry outcomes attempt fuel =
        ⟨Except.ok none, fuel, List.replicate (fuel - 1) rd⟩ := by
  intro fuel
  induction fuel with
  | zero => intro attempt _ _; rfl
  | succ f ih =>
    intro attempt hsum hrej
    obtain ⟨e, vs, ho, hbad⟩ := hrej attempt le_rfl (by omega)
    have hcond : (!e && (vs.length == count)) = false := by
      rcases hbad with h | h
      · subst h; rfl
      · simp [h]
    have hrest := ih (attempt + 1) (by omega) (fun i h1 h2 => hrej i (by omega) h2)
    rw [readLoop_reject_step count rd maxRetry outcomes attempt f e vs ho hcond, hrest]
    cases f with
    | zero =>
      have hlt : ¬ (attempt < maxRetry - 1) := by omega
      simp [hlt]
    | succ f' =>
      have hlt : attempt < maxRetry - 1 := by omega
      simp [hlt, List.replicate_succ]

theorem readLoop_accept_at {α : Type} (count : Nat) (rd : ℚ) (maxRetry : Nat)
    (outcomes : Nat → ReadOutcome α) :
    ∀ fuel attempt j vs, attempt + fuel = maxRetry → j < fuel →
      (∀ i, attempt ≤ i → i < attempt + j → rejectedResp count (outcomes i)) →
      outcomes (attempt + j) = ReadOutcome.resp false vs →
      vs.length = count →
      readLoop count rd maxRetry outcomes attempt fuel =
        ⟨Except.ok (some vs), j + 1, List.replicate j rd⟩ := by
  intro fuel
  induction fuel with
  | zero => intro attempt j vs _ hj _ _ _; omega
  | succ f ih =>
    intro attempt j vs hsum hj hrej hacc hlen
    cases j with
    | zero =>
      rw [Nat.add_zero] at hacc
      have hcond : (!false && (vs.length == count)) = true := by simp [hlen]
      rw [readLoop_accept_step count rd maxRetry outcomes attempt f false vs hacc hcond]
      simp
    | succ j' =>
      obtain ⟨e, ws, ho, hbad⟩ := hrej attempt le_rfl (by omega)
      have hcond : (!e && (ws.length == count)) = false := by
        rcases hbad with h | h
        · subst h; rfl
        · simp [h]
      have hlt : attempt < maxRetry - 1 := by omega
      have hacc' : outcomes (attempt + 1 + j') = ReadOutcome.resp false vs := by
        have harith : attempt + (j' + 1) = attempt + 1 + j' := by omega
        rw [harith] at hacc; exact hacc
      have hrest := ih (attempt + 1) j' vs (by omega) (by omega)
        (fun i h1 h2 => hrej i (by omega) (by omega)) hacc' hlen
      rw [readLoop_reject_step count rd maxRetry outcomes attempt f e ws ho hcond, hrest]
      simp [hlt, List.replicate_succ]

theorem readLoop_resp_isOk {α : Type} (count : Nat) (rd : ℚ) (maxRetry : Nat)
    (outcomes : Nat → ReadOutcome α)
    (hresp : ∀ i, ∃ e vs, outcomes i = ReadOutcome.resp e vs) :
    ∀ fuel attempt, ∃ o,
      (readLoop count rd maxRetry outcomes attempt fuel).result = Except.ok o := by
  intro fuel
  induction fuel with
  | zero => intro attempt; exact ⟨none, rfl⟩
  | succ f ih =>
    intro attempt
    obtain ⟨e, vs, ho⟩ := hresp attempt
    by_cases hc : (!e && (vs.length == count)) = true
    · exact ⟨some vs, by
        rw [readLoop_accept_step count rd maxRetry outcomes attempt f e vs ho hc]⟩
    · obtain ⟨o, hrec⟩ := ih (attempt + 1)
      have hc' : (!e && (vs.length == count)) = false := by simpa using hc
      exact ⟨o, by
        rw [readLoop_reject_step count rd maxRetry outcomes attempt f e vs ho hc']
        exact hrec⟩

theorem readLoop_some_length {α : Type} (count : Nat) (rd : ℚ) (maxRetry : Nat)
    (outcomes : Nat → ReadOutcome α) :
    ∀ fuel attempt vs,
      (readLoop count rd maxRetry outcomes attempt fuel).result = Except.ok (some vs) →
      vs.length = count := by
  intro fuel
  induction fuel with
  | zero => intro attempt vs h; simp [readLoop] at h
  | succ f ih =>
    intro attempt vs h
    cases ho : outcomes attempt with
    | raise e =>
      rw [readLoop_raise_step count rd maxRetry outcomes attempt f e ho] at h
      simp at h
    | resp e ws =>
      by_cases hc : (!e && (ws.length == count)) = true
      · rw [readLoop_accept_step count rd maxRetry outcomes attempt f e ws ho hc] at h
        have hws : ws = vs := by simpa using h
        have hlen : (ws.length == count) = true := (Bool.and_eq_true _ _ |>.mp hc).2
        rw [← hws]
        simpa using hlen
      · have hc' : (!e && (ws.length == count)) = false := by simpa using hc
        rw [readLoop_reject_step count rd maxRetry outcomes attempt f e ws ho hc'] at h
        exact ih (attempt + 1) vs h

theorem readLoop_attempts_pos {α : Type} (count : Nat) (rd : ℚ) (maxRetry : Nat)
    (outcomes : Nat → ReadOutcome α) (attempt fuel : Nat) (hf : 0 < fuel) :
    0 < (readLoop count rd maxRetry outcomes attempt fuel).attemptsMade := by
  cases fuel with
  | zero => omega
  | succ f =>
    cases ho : outcomes attempt with
    | raise e =>
      rw [readLoop_raise_step count rd maxRetry outcomes attempt f e ho]
      simp
    | resp e ws =>
      by_cases hc : (!e && (ws.length == count)) = true
      · rw [readLoop_accept_step count rd maxRetry outcomes attempt f e ws ho hc]
        simp
      · have hc' : (!e && (ws.length == count)) = false := by simpa using hc
        rw [readLoop_reject_step count rd maxRetry outcomes attempt f e ws ho hc']
        simp

theorem runRegistry_inv (ops : List RegOp) :
    ∀ s s', RegistryInv s → runRegistry ops s = Except.ok s' →
      countOf s' = countOf s + (numSetups ops : ℤ) - (numUnloads ops : ℤ) ∧
      RegistryInv s' := by
  induction ops with
  | nil =>
    intro s s' hinv hrun
    have : s = s' := by simpa [runRegistry] using hrun
    subst this
    simp [numSetups, numUnloads, hinv]
  | cons op ops ih =>
    intro s s' hinv hrun
    cases op with
    | setup =>
      have hrun' : runRegistry ops (async_setup_entry s) = Except.ok s' := by
        simpa [runRegistry] using hrun
      have hinv' : RegistryInv (async_setup_entry s) := by
        cases s with
        | none => simp [async_setup_entry, add_subscriber, RegistryInv]
        | some n =>
          have : (0:ℤ) < n := hinv
          simp only [async_setup_entry, add_subscriber, RegistryInv]
          omega
      obtain ⟨hcount, hinv''⟩ := ih (async_setup_entry s) s' hinv' hrun'
      constructor
      · rw [hcount]
        have hstep : countOf (async_setup_entry s) = countOf s + 1 := by
          cases s <;> simp [async_setup_entry, add_subscriber, countOf]
        rw [hstep]
        simp [numSetups, numUnloads, List.count_cons]
        ring
      · exact hinv''
    | unload =>
      cases s with
      | none => simp [runRegistry, async_unload_entry] at hrun
      | some n =>
        have hpos : (0:ℤ) < n := hinv
        by_cases hone : n - 1 = 0
        · have hrun' : runRegistry ops none = Except.ok s' := by
            simpa [runRegistry, async_unload_entry, remove_subscriber, hone] using hrun
          obtain ⟨hcount, hinv''⟩ := ih none s' trivial hrun'
          refine ⟨?_, hinv''⟩
          rw [hcount]
          simp [countOf, numSetups, numUnloads, List.count_cons]
          omega
        · have hrun' : runRegistry ops (some (n - 1)) = Except.ok s' := by
            simpa [runRegistry, async_unload_entry, remove_subscriber, hone] using hrun
          have hinv' : RegistryInv (some (n - 1)) := by
            simp only [RegistryInv]
            omega
          obtain ⟨hcount, hinv''⟩ := ih (some (n - 1)) s' hinv' hrun'
          refine ⟨?_, hinv''⟩
          rw [hcount]
          simp [countOf, numSetups, numUnloads, List.count_cons]
          omega

theorem readLoop_first_accept_iff {α : Type} (count : Nat) (rd : ℚ) (maxRetry : Nat)
    (outcomes : Nat → ReadOutcome α) (e : Bool) (vs : List α)
    (hmr : 1 ≤ maxRetry) (ho : outcomes 0 = ReadOutcome.resp e vs) :
    ((readLoop count rd maxRetry outcomes 0 maxRetry).result = Except.ok (some vs) ∧
     (readLoop count rd maxRetry outcomes 0 maxRetry).attemptsMade = 1)
    ↔ (e = false ∧ vs.length = count) := by
  obtain ⟨f, rfl⟩ : ∃ f, maxRetry = f + 1 := ⟨maxRetry - 1, by omega⟩
  by_cases hc : (!e && (vs.length == count)) = true
  · have hc' : e = false ∧ vs.length = count := by simpa using hc
    rw [readLoop_accept_step count rd (f + 1) outcomes 0 f e vs ho hc]
    simp [hc'.1, hc'.2]
  · have hc' : (!e && (vs.length == count)) = false := by simpa using hc
    have hne : ¬ (e = false ∧ vs.length = count) := by
      rintro ⟨h1, h2⟩
      subst h1
      simp [h2] at hc'
    rw [readLoop_reject_step count rd (f + 1) outcomes 0 f e vs ho hc']
    cases f with
    | zero =>
      simp [readLoop, hne]
    | succ f' =>
      have hpos := readLoop_attempts_pos count rd (f' + 1 + 1) outcomes (0 + 1) (f' + 1)
        (by omega)
      constructor
      · rintro ⟨h1, h2⟩
        exfalso
        simp only [ReadTrace.attemptsMade] at h2
        omega
      · intro h
        exact absurd h hne

/-- C1: for each multi-value read (holding registers, input registers,
coils) with at least one allowed attempt, if every attempt is rejected
the operation returns the sentinel `none` after exactly `maxRetries`
client calls, with a fixed `retryDelay` sleep between consecutive
attempts (a list of `maxRetries - 1` equal delays, no backoff growth). -/
theorem C1_reads_exhaust_retries :
    (∀ (maxRetries count : Nat) (retryDelay : ℚ) (outcomes : Nat → ReadOutcome Nat),
      1 ≤ maxRetries →
      (∀ i, i < maxRetries → rejectedResp count (outcomes i)) →
      (async_read_holding_registers maxRetries count retryDelay outcomes).result =
          Except.ok none ∧
      (async_read_holding_registers maxRetries count retryDelay outcomes).attemptsMade =
          maxRetries ∧
      (async_read_holding_registers maxRetries count retryDelay outcomes).sleeps =
          List.replicate (maxRetries - 1) retryDelay)
  ∧ (∀ (maxRetries count : Nat) (retryDelay : ℚ) (outcomes : Nat → ReadOutcome Nat),
      1 ≤ maxRetries →
      (∀ i, i < maxRetries → rejectedResp count (outcomes i)) →
      (async_read_input_registers maxRetries count retryDelay outcomes).result =
          Except.ok none ∧
      (async_read_input_registers maxRetries count retryDelay outcomes).attemptsMade =
          maxRetries ∧
      (async_read_input_registers maxRetries count retryDelay outcomes).sleeps =
          List.replicate (maxRetries - 1) retryDelay)
  ∧ (∀ (maxRetries count : Nat) (retryDelay : ℚ) (outcomes : Nat → ReadOutcome Bool),
      1 ≤ maxRetries →
      (∀ i, i < maxRetries → rejectedResp count (outcomes i)) →
      (async_read_coils maxRetries count retryDelay outcomes).result =
          Except.ok none ∧
      (async_read_coils maxRetries count retryDelay outcomes).attemptsMade =
          maxRetries ∧
      (async_read_coils maxRetries count retryDelay outcomes).sleeps =
          List.replicate (maxRetries - 1) retryDelay) := by
  refine ⟨?_, ?_, ?_⟩ <;>
  · intro maxRetries count retryDelay outcomes hmr hrej
    have h := readLoop_all_rejected count retryDelay maxRetries outcomes maxRetries 0
      (by omega) (fun i _ h2 => hrej i h2)
    simp [async_read_holding_registers, async_read_input_registers, async_read_coils, h]

/-- Witness for C1 at maxRetries 2, count 1, delay 0, every attempt an
error-flagged response. -/
theorem C1_witness :
    (async_read_holding_registers 2 1 0
        (fun _ => ReadOutcome.resp true ([] : List Nat))).result = Except.ok none ∧
    (async_read_holding_registers 2 1 0
        (fun _ => ReadOutcome.resp true ([] : List Nat))).attemptsMade = 2 ∧
    (async_read_holding_registers 2 1 0
        (fun _ => ReadOutcome.resp true ([] : List Nat))).sleeps = List.replicate 1 0 :=
  C1_reads_exhaust_retries.1 2 1 0 (fun _ => ReadOutcome.resp true ([] : List Nat))
    (by omega) (fun i _ => ⟨true, [], rfl, Or.inl rfl⟩)

/-- C2: a read attempt is accepted iff its response has no error flag
and the value count equals the requested count (stated for the first
attempt of each multi-value read), and if the first k-1 attempts are
rejected and the k-th is accepted with 1 ≤ k ≤ maxRetries, the read
returns the accepted values after exactly k client calls. -/
theorem C2_reads_accept_iff_and_stop_at_k :
    (∀ (maxRetries count : Nat) (retryDelay : ℚ) (outcomes : Nat → ReadOutcome Nat)
       (e : Bool) (vs : List Nat),
      1 ≤ maxRetries → outcomes 0 = ReadOutcome.resp e vs →
      (((async_read_holding_registers maxRetries count retryDelay outcomes).result =
            Except.ok (some vs) ∧
        (async_read_holding_registers maxRetries count retryDelay outcomes).attemptsMade = 1)
       ↔ (e = false ∧ vs.length = count)))
  ∧ (∀ (maxRetries count : Nat) (retryDelay : ℚ) (outcomes : Nat → ReadOutcome Nat)
       (e : Bool) (vs : List Nat),
      1 ≤ maxRetries → outcomes 0 = ReadOutcome.resp e vs →
      (((async_read_input_registers maxRetries count retryDelay outcomes).result =
            Except.ok (some vs) ∧
        (async_read_input_registers maxRetries count retryDelay outcomes).attemptsMade = 1)
       ↔ (e = false ∧ vs.length = count)))
  ∧ (∀ (maxRetries count : Nat) (retryDelay : ℚ) (outcomes : Nat → ReadOutcome Bool)
       (e : Bool) (vs : List Bool),
      1 ≤ maxRetries → outcomes 0 = ReadOutcome.resp e vs →
      (((async_read_coils maxRetries count retryDelay outcomes).result =
            Except.ok (some vs) ∧
        (async_read_coils maxRetries count retryDelay outcomes).attemptsMade = 1)
       ↔ (e = false ∧ vs.length = count)))
  ∧ (∀ (maxRetries count : Nat) (retryDelay : ℚ) (outcomes : Nat → ReadOutcome Nat)
       (k : Nat) (vs : List Nat),
      1 ≤ k → k ≤ maxRetries →
      (∀ i, i < k - 1 → rejectedResp count (outcomes i)) →
      outcomes (k - 1) = ReadOutcome.resp false vs →
      vs.length = count →
      (async_read_holding_registers maxRetries count retryDelay outcomes).result =
          Except.ok (some vs) ∧
      (async_read_holding_registers maxRetries count retryDelay outcomes).attemptsMade = k)
  ∧ (∀ (maxRetries count : Nat) (retryDelay : ℚ) (outcomes : Nat → ReadOutcome Nat)
       (k : Nat) (vs : List Nat),
      1 ≤ k → k ≤ maxRetries →
      (∀ i, i < k - 1 → rejectedResp count (outcomes i)) →
      outcomes (k - 1) = ReadOutcome.resp false vs →
      vs.length = count →
      (async_read_input_registers maxRetries count retryDelay outcomes).result =
          Except.ok (some vs) ∧
      (async_read_input_registers maxRetries count retryDelay outcomes).attemptsMade = k)
  ∧ (∀ (maxRetries count : Nat) (retryDelay : ℚ) (outcomes : Nat → ReadOutcome Bool)
       (k : Nat) (vs : List Bool),
      1 ≤ k → k ≤ maxRetries →
      (∀ i, i < k - 1 → rejectedResp count (outcomes i)) →
      outcomes (k - 1) = ReadOutcome.resp false vs →
      vs.length = count →
      (async_read_coils maxRetries count retryDelay outcomes).result =
          Except.ok (some vs) ∧
      (async_read_coils maxRetries count retryDelay outcomes).attemptsMade = k) := by
  refine ⟨?_, ?_, ?_, ?_, ?_, ?_⟩
  · intro maxRetries count retryDelay outcomes e vs hmr ho
    exact readLoop_first_accept_iff count retryDelay maxRetries outcomes e vs hmr ho
  · intro maxRetries count retryDelay outcomes e vs hmr ho
    exact readLoop_first_accept_iff count retryDelay maxRetries outcomes e vs hmr ho
  · intro maxRetries count retryDelay outcomes e vs hmr ho
    exact readLoop_first_accept_iff count retryDelay maxRetries outcomes e vs hmr ho
  all_goals
  · intro maxRetries count retryDelay outcomes k vs hk hkm hrej hacc hlen
    have hacc' : outcomes (0 + (k - 1)) = ReadOutcome.resp false vs := by
      simpa using hacc
    have h := readLoop_accept_at count retryDelay maxRetries outcomes maxRetries 0 (k - 1)
      vs (by omega) (by omega) (fun i h1 h2 => hrej i (by omega)) hacc' hlen
    rw [show (k - 1) + 1 = k by omega] at h
    simp [async_read_holding_registers, async_read_input_registers, async_read_coils, h]

/-- Witness for C2: first attempt rejected, second accepted with value
list of the requested length; and an acceptance-iff instance at the
first attempt. -/
theorem C2_witness :
    ((async_read_holding_registers 3 1 0
        (fun i => if i = 0 then ReadOutcome.resp true ([] : List Nat)
                  else ReadOutcome.resp false [7])).result = Except.ok (some [7]) ∧
     (async_read_holding_registers 3 1 0
        (fun i => if i = 0 then ReadOutcome.resp true ([] : List Nat)
                  else ReadOutcome.resp false [7])).attemptsMade = 2) ∧
    (((async_read_holding_registers 3 1 0
        (fun _ => ReadOutcome.resp false [7])).result = Except.ok (some [7]) ∧
      (async_read_holding_registers 3 1 0
        (fun _ => ReadOutcome.resp false [7])).attemptsMade = 1)
     ↔ ((false : Bool) = false ∧ ([7] : List Nat).length = 1)) := by
  constructor
  · exact C2_reads_accept_iff_and_stop_at_k.2.2.2.1 3 1 0
      (fun i => if i = 0 then ReadOutcome.resp true ([] : List Nat)
                else ReadOutcome.resp false [7]) 2 [7]
      (by omega) (by omega)
      (fun i hi => by
        have hz : i = 0 := by omega
        subst hz
        exact ⟨true, [], rfl, Or.inl rfl⟩)
      rfl rfl
  · exact C2_reads_accept_iff_and_stop_at_k.1 3 1 0
      (fun _ => ReadOutcome.resp false [7]) false [7] (by omega) rfl

/-- C3 (code evaluation at the failing input): a write whose response
carries the protocol error flag, with no exception raised, falls through
the try block and returns None rather than the boolean False that the
claim (and the bool return type of async_write_register) promises; the
exception paths do return False and the success path True. -/
theorem C3_write_error_response_returns_none :
    async_write_register (WriteOutcome.resp true) = Except.ok none ∧
    async_write_coil (WriteOutcome.resp true) = Except.ok none ∧
    async_write_register (WriteOutcome.resp false) = Except.ok (some true) ∧
    async_write_register (WriteOutcome.raise (PyError.modbus ModbusError.ioError)) =
      Except.ok (some false) ∧
    async_write_coil (WriteOutcome.raise (PyError.modbus ModbusError.modbusError)) =
      Except.ok (some false) :=
  ⟨rfl, rfl, rfl, rfl, rfl⟩

/-- C4 counterexample: the read paths catch nothing, so a transport
exception raised by the client during read_holding_registers escapes to
the consumer instead of being converted to the failure sentinel. -/
theorem C4_counterexample :
    (async_read_holding_registers 3 1 0
        (fun _ => ReadOutcome.raise (PyError.modbus ModbusError.ioError))).result =
      Except.error (PyError.modbus ModbusError.ioError) ∧
    returnedNormally
      (async_read_holding_registers 3 1 0
        (fun _ => ReadOutcome.raise (PyError.modbus ModbusError.ioError))).result =
      false :=
  ⟨rfl, rfl⟩

/-- C4 amended: the write paths never let an exception escape (every
exception class is caught and converted to a return value), and a read
returns normally (sentinel or values, never an escaping exception)
whenever no client call of it raises; for the single-coil read the
response must additionally carry at least one bit or be error-flagged. -/
theorem C4_amended_writes_never_escape_reads_escape_only_on_raise :
    (∀ w : WriteOutcome, returnedNormally (async_write_register w) = true)
  ∧ (∀ w : WriteOutcome, returnedNormally (async_write_coil w) = true)
  ∧ (∀ (maxRetries count : Nat) (retryDelay : ℚ) (outcomes : Nat → ReadOutcome Nat),
      (∀ i, ∃ e vs, outcomes i = ReadOutcome.resp e vs) →
      returnedNormally
        (async_read_holding_registers maxRetries count retryDelay outcomes).result = true)
  ∧ (∀ (maxRetries count : Nat) (retryDelay : ℚ) (outcomes : Nat → ReadOutcome Nat),
      (∀ i, ∃ e vs, outcomes i = ReadOutcome.resp e vs) →
      returnedNormally
        (async_read_input_registers maxRetries count retryDelay outcomes).result = true)
  ∧ (∀ (maxRetries count : Nat) (retryDelay : ℚ) (outcomes : Nat → ReadOutcome Bool),
      (∀ i, ∃ e vs, outcomes i = ReadOutcome.resp e vs) →
      returnedNormally
        (async_read_coils maxRetries count retryDelay outcomes).result = true)
  ∧ (∀ (outcomes : Nat → ReadOutcome Bool) (e : Bool) (b : Bool) (bs : List Bool),
      outcomes 0 = ReadOutcome.resp e (b :: bs) →
      returnedNormally (async_read_coil outcomes).result = true) := by
  have hw : ∀ w : WriteOutcome, returnedNormally (async_write_register w) = true := by
    intro w
    cases w with
    | raise e =>
      rcases e with m | _ | _
      · cases m <;> rfl
      · rfl
      · rfl
    | resp isErr => cases isErr <;> rfl
  have hwc : ∀ w : WriteOutcome, returnedNormally (async_write_coil w) = true := by
    intro w
    cases w with
    | raise e =>
      rcases e with m | _ | _
      · cases m <;> rfl
      · rfl
      · rfl
    | resp isErr => cases isErr <;> rfl
  refine ⟨hw, hwc, ?_, ?_, ?_, ?_⟩
  · intro maxRetries count retryDelay outcomes hresp
    obtain ⟨o, ho⟩ :=
      readLoop_resp_isOk count retryDelay maxRetries outcomes hresp maxRetries 0
    simp only [async_read_holding_registers]
    rw [ho]
    rfl
  · intro maxRetries count retryDelay outcomes hresp
    obtain ⟨o, ho⟩ :=
      readLoop_resp_isOk count retryDelay maxRetries outcomes hresp maxRetries 0
    simp only [async_read_input_registers]
    rw [ho]
    rfl
  · intro maxRetries count retryDelay outcomes hresp
    obtain ⟨o, ho⟩ :=
      readLoop_resp_isOk count retryDelay maxRetries outcomes hresp maxRetries 0
    simp only [async_read_coils]
    rw [ho]
    rfl
  · intro outcomes e b bs ho
    cases e <;> simp [async_read_coil, ho, returnedNormally]

/-- Witness for the amended C4 at a run whose three attempts are all
error-flagged responses. -/
theorem C4_amended_witness :
    returnedNormally
      (async_read_holding_registers 3 1 0
        (fun _ => ReadOutcome.resp true ([] : List Nat))).result = true :=
  C4_amended_writes_never_escape_reads_escape_only_on_raise.2.2.1 3 1 0
    (fun _ => ReadOutcome.resp true ([] : List Nat)) (fun _ => ⟨true, [], rfl⟩)

/-- C5: through the registry lifecycle interface, for any sequence of
setup (acquire) and unload (release) calls on one endpoint that runs to
completion, the subscriber count equals the number of setups minus the
number of unloads, is never negative, and a host instance is present in
the registry exactly when the count is positive. -/
theorem C5_subscriber_count_invariant :
    ∀ (ops : List RegOp) (s : RegistryState),
      runRegistry ops none = Except.ok s →
      countOf s = (numSetups ops : ℤ) - (numUnloads ops : ℤ) ∧
      0 ≤ countOf s ∧
      (s.isSome ↔ 0 < countOf s) := by
  intro ops s hrun
  obtain ⟨hcount, hinv⟩ := runRegistry_inv ops none s True.intro hrun
  refine ⟨by simpa [countOf] using hcount, ?_, ?_⟩
  · cases s with
    | none => simp [countOf]
    | some n =>
      have hn : (0:ℤ) < n := hinv
      simp only [countOf]
      omega
  · cases s with
    | none => simp [countOf]
    | some n =>
      have hn : (0:ℤ) < n := hinv
      simp only [countOf, Option.isSome_some]
      exact ⟨fun _ => hn, fun _ => trivial⟩

/-- Witness for C5 on the sequence setup, setup, unload. -/
theorem C5_witness :
    countOf (some 1) =
      (numSetups [RegOp.setup, RegOp.setup, RegOp.unload] : ℤ) -
        (numUnloads [RegOp.setup, RegOp.setup, RegOp.unload] : ℤ) ∧
    0 ≤ countOf (some 1) ∧
    ((some (1:ℤ)).isSome ↔ 0 < countOf (some 1)) :=
  C5_subscriber_count_invariant [RegOp.setup, RegOp.setup, RegOp.unload] (some 1) rfl

/-- C6: the single-coil read makes exactly one client call whatever the
outcome, its return value depends only on the first outcome (no retry
loop), and on a response holding at least one bit it returns that bit
when the error flag is clear and the sentinel None when it is set. -/
theorem C6_read_coil_single_attempt :
    (∀ outcomes : Nat → ReadOutcome Bool, (async_read_coil outcomes).attemptsMade = 1)
  ∧ (∀ (outcomes : Nat → ReadOutcome Bool) (e : Bool) (b : Bool) (bs : List Bool),
      outcomes 0 = ReadOutcome.resp e (b :: bs) →
      (async_read_coil outcomes).result =
        (if e = true then Except.ok none else Except.ok (some b)))
  ∧ (∀ o o' : Nat → ReadOutcome Bool, o 0 = o' 0 →
      async_read_coil o = async_read_coil o') := by
  refine ⟨?_, ?_, ?_⟩
  · intro outcomes
    cases ho : outcomes 0 with
    | raise e => simp [async_read_coil, ho]
    | resp e bits =>
      cases e <;> cases bits <;> simp [async_read_coil, ho]
  · intro outcomes e b bs ho
    cases e <;> simp [async_read_coil, ho]
  · intro o o' h
    simp [async_read_coil, h]

/-- Witness for C6 at a clean one-bit response. -/
theorem C6_witness :
    (async_read_coil (fun _ => ReadOutcome.resp false [true])).result =
      Except.ok (some true) ∧
    (async_read_coil (fun _ => ReadOutcome.resp false [true])).attemptsMade = 1 := by
  constructor
  · have h := C6_read_coil_single_attempt.2.1
      (fun _ => ReadOutcome.resp false [true]) false true [] rfl
    simpa using h
  · exact C6_read_coil_single_attempt.1 (fun _ => ReadOutcome.resp false [true])

/-- C7: a release that brings the subscriber count of a host from one to
zero removes the registry entry and closes the transport, while two
setups followed by one unload leave the host registered with count 1. -/
theorem C7_release_to_zero_removes_and_disconnects :
    async_unload_entry (some 1) = Except.ok (none, true) ∧
    runRegistry [RegOp.setup, RegOp.setup, RegOp.unload] none = Except.ok (some 1) := by
  constructor
  · rfl
  · rfl

/-- C8: async_connect makes no client call when already connected and
establishes the connection otherwise; async_disconnect makes no client
call when already disconnected and closes otherwise; both are
idempotent, and the second of two consecutive connect calls never
touches the transport. -/
theorem C8_connect_disconnect_idempotent :
    async_connect true = (true, false) ∧
    async_connect false = (true, true) ∧
    async_disconnect false = (false, false) ∧
    async_disconnect true = (false, true) ∧
    (∀ c : Bool, (async_connect (async_connect c).1).1 = (async_connect c).1) ∧
    (∀ c : Bool, (async_connect (async_connect c).1).2 = false) ∧
    (∀ c : Bool, (async_disconnect (async_disconnect c).1).1 = (async_disconnect c).1) ∧
    (∀ c : Bool, (async_disconnect (async_disconnect c).1).2 = false) := by
  refine ⟨rfl, rfl, rfl, rfl, ?_, ?_, ?_, ?_⟩ <;> (intro c; cases c <;> rfl)

/-- C10: the single-coil read accepts any non-error response with no
check of the returned bit count and returns its first bit, a non-error
response with an empty bit list has no defined result (the unguarded
indexing raises), and the multi-value coil read is protected: any value
list it accepts has exactly the requested length. -/
theorem C10_read_coil_unguarded_indexing :
    (∀ (outcomes : Nat → ReadOutcome Bool) (b : Bool) (bs : List Bool),
      outcomes 0 = ReadOutcome.resp false (b :: bs) →
      (async_read_coil outcomes).result = Except.ok (some b))
  ∧ (∀ outcomes : Nat → ReadOutcome Bool,
      outcomes 0 = ReadOutcome.resp false [] →
      (async_read_coil outcomes).result = Except.error PyError.indexError)
  ∧ (∀ (maxRetries count : Nat) (retryDelay : ℚ) (outcomes : Nat → ReadOutcome Bool)
       (vs : List Bool),
      (async_read_coils maxRetries count retryDelay outcomes).result =
          Except.ok (some vs) →
      vs.length = count) := by
  refine ⟨?_, ?_, ?_⟩
  · intro outcomes b bs ho
    simp [async_read_coil, ho]
  · intro outcomes ho
    simp [async_read_coil, ho]
  · intro maxRetries count retryDelay outcomes vs h
    exact readLoop_some_length count retryDelay maxRetries outcomes maxRetries 0 vs h

/-- Witness for C10: a two-bit non-error response to the one-coil read
is accepted and its first bit returned, and an empty non-error response
yields the IndexError outcome. -/
theorem C10_witness :
    (async_read_coil (fun _ => ReadOutcome.resp false [true, false])).result =
      Except.ok (some true) ∧
    (async_read_coil (fun _ => ReadOutcome.resp false ([] : List Bool))).result =
      Except.error PyError.indexError :=
  ⟨C10_read_coil_unguarded_indexing.1 (fun _ => ReadOutcome.resp false [true, false])
      true [false] rfl,
   C10_read_coil_unguarded_indexing.2.1 (fun _ => ReadOutcome.resp false ([] : List Bool))
      rfl⟩
